import Mathlib

/-!
Verification of the immutable-storage repository: a shallow embedding of
the `EntityStorageImmutableStorageConnector` class (store / get / remove over
a generic entity-storage backend, with URN identifiers) and proofs of the
specification's claims about it.

Bytes are modelled as `List Nat` with every element below 256.  The external
core library (`Urn`, `Converter`, `Guards`, `RandomHelper`) is not part of
this repository's sources; those pieces are modelled from the specification's
description of them and marked as such.  The random source is made explicit:
`store` receives the 32 random bytes as an argument.
-/

deriving instance DecidableEq for Except

/-- Errors raised by the connector.  Mirrors the TypeScript error classes:
`Guards` failures, `Urn.guard` failures, `NotFoundError(source, tag)`,
`GeneralError(source, tag)` without an inner cause, and
`GeneralError(source, tag, undefined, inner)` wrapping an inner cause
(the shape produced by the catch blocks). -/
inductive ConnError where
  | guardFailure (property : String)
  | invalidUrn (property : String)
  | notFound (source : String) (tag : String)
  | general (source : String) (tag : String)
  | wrapped (source : String) (tag : String) (inner : ConnError)
deriving DecidableEq, Repr

/-- The persisted entity (`ImmutableItem` in the source): a hex id, the
controller who created the record, and the payload as a base64 string. -/
structure ImmutableItem where
  id : String
  controller : String
  data : String
deriving DecidableEq, Repr

/-- The backing entity store, modelled as a list of items keyed by `id`. -/
abbrev EntityStore := List ImmutableItem

/-- `IEntityStorageConnector.get`: look an item up by its id. -/
def entGet (st : EntityStore) (key : String) : Option ImmutableItem :=
  st.find? fun item => item.id == key

/-- `IEntityStorageConnector.set`: upsert an item keyed by its id. -/
def entSet (st : EntityStore) (item : ImmutableItem) : EntityStore :=
  match st with
  | [] => [item]
  | e :: rest => if e.id == item.id then item :: rest else e :: entSet rest item

/-- `IEntityStorageConnector.remove`: delete the item with the given id. -/
def entRemove (st : EntityStore) (key : String) : EntityStore :=
  st.filter fun item => item.id != key

/-- Split a character list at every occurrence of the delimiter `c`
(the behaviour of splitting a colon-delimited identifier). -/
def splitCh (c : Char) : List Char → List (List Char)
  | [] => [[]]
  | x :: xs =>
    match splitCh c xs with
    | [] => [[x]]
    | y :: ys => if x = c then [] :: y :: ys else (x :: y) :: ys

/-- Modelled from the spec: the structured identifier's segments, obtained by
splitting the string on the colon delimiter. -/
def urnSegments (s : String) : List (List Char) :=
  splitCh ':' s.data

/-- Modelled from the spec: `Urn.guard` / syntactic validity.  A structured
identifier is `{namespace}:{method}:{specificId}` — wrong delimiter count or
empty segments make it malformed. -/
def urnIsValid (s : String) : Bool :=
  (urnSegments s).length == 3 && (urnSegments s).all fun seg => !seg.isEmpty

/-- Modelled from the spec: `Urn.namespaceMethod` — the method tag, the
segment after the namespace. -/
def namespaceMethod (s : String) : String :=
  String.mk ((urnSegments s).getD 1 [])

/-- Modelled from the spec: `Urn.namespaceSpecific(i)` — the i-th segment of
the method-specific suffix, addressable by positional index (index 1 of the
suffix is overall segment 2, the raw id). -/
def namespaceSpecific (s : String) (i : Nat) : String :=
  String.mk ((urnSegments s).getD (1 + i) [])

/-- Modelled from the spec: `new Urn(namespaceId, specific).toString()`
renders the namespace tag and the specific part, colon-delimited. -/
def urnToString (namespaceId specific : String) : String :=
  namespaceId ++ ":" ++ specific

/-- Modelled from the spec: `format(namespace, method, rawId)` produces the
canonical colon-delimited string form. -/
def urnFormat (ns method rawId : String) : String :=
  ns ++ ":" ++ method ++ ":" ++ rawId

/-- Modelled from the spec: `parse(input)` fails with the malformed-identifier
error when the input is not syntactically a structured identifier, and
otherwise exposes the method tag and the raw id suffix. -/
def urnParse (s : String) : Except ConnError (String × String) :=
  if urnIsValid s then Except.ok (namespaceMethod s, namespaceSpecific s 1)
  else Except.error (ConnError.invalidUrn "input")

/-- The sixteen lowercase hexadecimal digit characters. -/
def hexDigitTable : Nat → Char
  | 0 => '0' | 1 => '1' | 2 => '2' | 3 => '3'
  | 4 => '4' | 5 => '5' | 6 => '6' | 7 => '7'
  | 8 => '8' | 9 => '9' | 10 => 'a' | 11 => 'b'
  | 12 => 'c' | 13 => 'd' | 14 => 'e' | _ => 'f'

/-- The hex digit for a nibble. -/
def hexDigit (n : Nat) : Char :=
  hexDigitTable (n % 16)

/-- Modelled from the spec: `Converter.bytesToHex` — each byte becomes two
lowercase hex characters. -/
def bytesToHexChars : List Nat → List Char
  | [] => []
  | b :: rest => hexDigit (b / 16) :: hexDigit (b % 16) :: bytesToHexChars rest

/-- `Converter.bytesToHex` as a string. -/
def bytesToHex (bs : List Nat) : String :=
  String.mk (bytesToHexChars bs)

/-- The base64 digit for a sextet (standard alphabet). -/
def base64Digit (n : Nat) : Char :=
  if n < 26 then Char.ofNat (65 + n)
  else if n < 52 then Char.ofNat (97 + (n - 26))
  else if n < 62 then Char.ofNat (48 + (n - 52))
  else if n = 62 then '+'
  else '/'

/-- The sextet value of a base64 character, `none` for characters outside the
alphabet. -/
def base64Val (c : Char) : Option Nat :=
  if 'A' ≤ c ∧ c ≤ 'Z' then some (c.toNat - 65)
  else if 'a' ≤ c ∧ c ≤ 'z' then some (c.toNat - 97 + 26)
  else if '0' ≤ c ∧ c ≤ '9' then some (c.toNat - 48 + 52)
  else if c = '+' then some 62
  else if c = '/' then some 63
  else none

/-- Modelled from the spec: `Converter.bytesToBase64` — standard base64 with
padding, three bytes to four characters. -/
def bytesToBase64Chars : List Nat → List Char
  | [] => []
  | [b1] =>
    [base64Digit (b1 / 4), base64Digit (b1 % 4 * 16), '=', '=']
  | [b1, b2] =>
    [base64Digit (b1 / 4), base64Digit (b1 % 4 * 16 + b2 / 16),
     base64Digit (b2 % 16 * 4), '=']
  | b1 :: b2 :: b3 :: rest =>
    base64Digit (b1 / 4) :: base64Digit (b1 % 4 * 16 + b2 / 16) ::
    base64Digit (b2 % 16 * 4 + b3 / 64) :: base64Digit (b3 % 64) ::
    bytesToBase64Chars rest

/-- `Converter.bytesToBase64` as a string. -/
def bytesToBase64 (bs : List Nat) : String :=
  String.mk (bytesToBase64Chars bs)

/-- Modelled from the spec: `Converter.base64ToBytes` — decode four
characters to three bytes, honouring padding; `none` on malformed input. -/
def base64CharsToBytes : List Char → Option (List Nat)
  | [] => some []
  | c1 :: c2 :: c3 :: c4 :: rest =>
    (base64Val c1).bind fun v1 =>
    (base64Val c2).bind fun v2 =>
    if c3 = '=' then
      if c4 = '=' && rest.isEmpty then some [v1 * 4 + v2 / 16] else none
    else
      (base64Val c3).bind fun v3 =>
      if c4 = '=' then
        if rest.isEmpty then some [v1 * 4 + v2 / 16, v2 % 16 * 16 + v3 / 4]
        else none
      else
        (base64Val c4).bind fun v4 =>
        (base64CharsToBytes rest).bind fun tail =>
        some ((v1 * 4 + v2 / 16) :: (v2 % 16 * 16 + v3 / 4) ::
              (v3 % 4 * 64 + v4) :: tail)
  | _ => none

/-- `Converter.base64ToBytes` on a string. -/
def base64ToBytes (s : String) : Option (List Nat) :=
  base64CharsToBytes s.data


namespace EntityStorageImmutableStorageConnector
/-- `EntityStorageImmutableStorageConnector.NAMESPACE`. -/
def NAMESPACE : String := "entity-storage"

/-- `EntityStorageImmutableStorageConnector.CLASS_NAME`. -/
def CLASS_NAME : String := "EntityStorageImmutableStorageConnector"

/-- Modelled from the spec: `Guards.stringValue` rejects an empty string
argument before anything else runs. -/
def guardStringValue (property value : String) : Except ConnError Unit :=
  if value = "" then Except.error (ConnError.guardFailure property)
  else Except.ok ()

/-- Modelled from the spec: the guard on `data` — a non-empty byte
sequence is required. -/
def guardData (property : String) (value : List Nat) : Except ConnError Unit :=
  if value = [] then Except.error (ConnError.guardFailure property)
  else Except.ok ()

/-- `EntityStorageImmutableStorageConnector.store`.  The random source is
explicit: `randomBytes` stands for `RandomHelper.generate(32)`. -/
def store (st : EntityStore) (controller : String) (data : List Nat)
    (randomBytes : List Nat) : Except ConnError (EntityStore × String) :=
  match guardStringValue "controller" controller with
  | Except.error e => Except.error e
  | Except.ok _ =>
    match guardData "data" data with
    | Except.error e => Except.error e
    | Except.ok _ =>
      let immutableItemId := bytesToHex randomBytes
      let immutableItem : ImmutableItem :=
        { id := immutableItemId, controller := controller,
          data := bytesToBase64 data }
      let st2 := entSet st immutableItem
      Except.ok (st2, "immutable:" ++ urnToString NAMESPACE immutableItemId)

/-- The try block of `get`: fetch by raw id, not-found check, base64 decode.
Every error raised here is caught and wrapped by `get`. -/
def getTryBody (st : EntityStore) (id : String) : Except ConnError (List Nat) :=
  match entGet st (namespaceSpecific id 1) with
  | none => Except.error (ConnError.notFound CLASS_NAME "immutableStorageNotFound")
  | some item =>
    match base64ToBytes item.data with
    | none => Except.error (ConnError.general CLASS_NAME "base64Invalid")
    | some bytes => Except.ok bytes

/-- `EntityStorageImmutableStorageConnector.get`: guard the urn, check the
namespace method before the try block, then run the try block with its
catch wrapping any error as `GeneralError("gettingFailed", inner)`. -/
def get (st : EntityStore) (id : String) : Except ConnError (List Nat) :=
  if urnIsValid id then
    if namespaceMethod id ≠ NAMESPACE then
      Except.error (ConnError.general CLASS_NAME "namespaceMismatch")
    else
      match getTryBody st id with
      | Except.ok v => Except.ok v
      | Except.error e => Except.error (ConnError.wrapped CLASS_NAME "gettingFailed" e)
  else Except.error (ConnError.invalidUrn "id")

/-- The try block of `remove`: fetch by raw id, not-found check, controller
check, delete.  Every error raised here is caught and wrapped by `remove`. -/
def removeTryBody (st : EntityStore) (controller id : String) :
    Except ConnError EntityStore :=
  match entGet st (namespaceSpecific id 1) with
  | none => Except.error (ConnError.notFound CLASS_NAME "immutableStorageNotFound")
  | some item =>
    if item.controller ≠ controller then
      Except.error (ConnError.general CLASS_NAME "notControllerRemove")
    else
      Except.ok (entRemove st (namespaceSpecific id 1))

/-- `EntityStorageImmutableStorageConnector.remove`: guard the controller and
the urn, check the namespace method before the try block, then run the try
block with its catch wrapping any error as
`GeneralError("removingFailed", inner)`.  Returns the new store state. -/
def remove (st : EntityStore) (controller id : String) :
    Except ConnError EntityStore :=
  match guardStringValue "controller" controller with
  | Except.error e => Except.error e
  | Except.ok _ =>
    if urnIsValid id then
      if namespaceMethod id ≠ NAMESPACE then
        Except.error (ConnError.general CLASS_NAME "namespaceMismatch")
      else
        match removeTryBody st controller id with
        | Except.ok st2 => Except.ok st2
        | Except.error e => Except.error (ConnError.wrapped CLASS_NAME "removingFailed" e)
    else Except.error (ConnError.invalidUrn "id")

end EntityStorageImmutableStorageConnector

open EntityStorageImmutableStorageConnector

/-! ## Auxiliary lemmas about the converters -/

theorem base64Val_base64Digit : ∀ n, n < 64 → base64Val (base64Digit n) = some n := by
  decide

theorem base64Digit_ne_pad : ∀ n, n < 64 → base64Digit n ≠ '=' := by
  decide

theorem base64_roundtrip :
    ∀ bs : List Nat, (∀ b ∈ bs, b < 256) →
      base64CharsToBytes (bytesToBase64Chars bs) = some bs
  | [], _ => rfl
  | [b1], h => by
    have hb1 : b1 < 256 := h b1 (by simp)
    have e1 := base64Val_base64Digit (b1 / 4) (by omega)
    have e2 := base64Val_base64Digit (b1 % 4 * 16) (by omega)
    simp [bytesToBase64Chars, base64CharsToBytes, e1, e2]
    omega
  | [b1, b2], h => by
    have hb1 : b1 < 256 := h b1 (by simp)
    have hb2 : b2 < 256 := h b2 (by simp)
    have e1 := base64Val_base64Digit (b1 / 4) (by omega)
    have e2 := base64Val_base64Digit (b1 % 4 * 16 + b2 / 16) (by omega)
    have e3 := base64Val_base64Digit (b2 % 16 * 4) (by omega)
    have n3 := base64Digit_ne_pad (b2 % 16 * 4) (by omega)
    simp [bytesToBase64Chars, base64CharsToBytes, e1, e2, e3, n3]
    omega
  | b1 :: b2 :: b3 :: rest', h => by
    have hb1 : b1 < 256 := h b1 (by simp)
    have hb2 : b2 < 256 := h b2 (by simp)
    have hb3 : b3 < 256 := h b3 (by simp)
    have ih := base64_roundtrip rest' (fun b hb => h b (by simp [hb]))
    have e1 := base64Val_base64Digit (b1 / 4) (by omega)
    have e2 := base64Val_base64Digit (b1 % 4 * 16 + b2 / 16) (by omega)
    have e3 := base64Val_base64Digit (b2 % 16 * 4 + b3 / 64) (by omega)
    have e4 := base64Val_base64Digit (b3 % 64) (by omega)
    have n3 := base64Digit_ne_pad (b2 % 16 * 4 + b3 / 64) (by omega)
    have n4 := base64Digit_ne_pad (b3 % 64) (by omega)
    simp [bytesToBase64Chars, base64CharsToBytes, e1, e2, e3, e4, ih, n3, n4]
    omega

theorem base64ToBytes_bytesToBase64 (bs : List Nat) (h : ∀ b ∈ bs, b < 256) :
    base64ToBytes (bytesToBase64 bs) = some bs :=
  base64_roundtrip bs h

/-! ## Auxiliary lemmas about identifier splitting -/

theorem splitCh_ne_nil (c : Char) : ∀ l : List Char, splitCh c l ≠ []
  | [] => by simp [splitCh]
  | x :: xs => by
    simp only [splitCh]
    rcases splitCh c xs with _ | ⟨y, ys⟩
    · simp
    · by_cases hx : x = c <;> simp [hx]

theorem splitCh_of_not_mem (c : Char) : ∀ xs : List Char, c ∉ xs → splitCh c xs = [xs]
  | [], _ => rfl
  | x :: xs, h => by
    have hx : ¬(x = c) := fun he => h (by simp [he])
    have ih := splitCh_of_not_mem c xs (fun hm => h (by simp [hm]))
    simp only [splitCh, ih]
    simp [hx]

theorem splitCh_append (c : Char) : ∀ xs ys : List Char, c ∉ xs →
    splitCh c (xs ++ c :: ys) = xs :: splitCh c ys
  | [], ys, _ => by
    simp only [List.nil_append, splitCh]
    rcases hr : splitCh c ys with _ | ⟨y, ys'⟩
    · exact absurd hr (splitCh_ne_nil c ys)
    · simp
  | x :: xs, ys, h => by
    have hx : ¬(x = c) := fun he => h (by simp [he])
    have ih := splitCh_append c xs ys (fun hm => h (by simp [hm]))
    rw [List.cons_append]
    simp only [splitCh]
    rw [ih]
    simp [hx]

theorem urnSegments_urnFormat (ns m raw : List Char)
    (h1 : ':' ∉ ns) (h2 : ':' ∉ m) (h3 : ':' ∉ raw) :
    urnSegments (urnFormat (String.mk ns) (String.mk m) (String.mk raw)) =
      [ns, m, raw] := by
  have hc : (":" : String).data = [':'] := rfl
  have hdata : (urnFormat (String.mk ns) (String.mk m) (String.mk raw)).data =
      ns ++ ':' :: (m ++ ':' :: raw) := by
    simp [urnFormat, String.data_append, hc]
  unfold urnSegments
  rw [hdata, splitCh_append _ _ _ h1, splitCh_append _ _ _ h2,
      splitCh_of_not_mem _ _ h3]

theorem urnIsValid_urnFormat (ns m raw : List Char)
    (h1 : ':' ∉ ns) (h2 : ':' ∉ m) (h3 : ':' ∉ raw)
    (n1 : ns ≠ []) (n2 : m ≠ []) (n3 : raw ≠ []) :
    urnIsValid (urnFormat (String.mk ns) (String.mk m) (String.mk raw)) = true := by
  unfold urnIsValid
  rw [show urnSegments (urnFormat (String.mk ns) (String.mk m) (String.mk raw)) =
        urnSegments (urnFormat (String.mk ns) (String.mk m) (String.mk raw)) from rfl,
      urnSegments_urnFormat ns m raw h1 h2 h3]
  simp [n1, n2, n3]

theorem namespaceMethod_urnFormat (ns m raw : List Char)
    (h1 : ':' ∉ ns) (h2 : ':' ∉ m) (h3 : ':' ∉ raw) :
    namespaceMethod (urnFormat (String.mk ns) (String.mk m) (String.mk raw)) =
      String.mk m := by
  unfold namespaceMethod
  rw [urnSegments_urnFormat ns m raw h1 h2 h3]
  rfl

theorem namespaceSpecific_urnFormat (ns m raw : List Char)
    (h1 : ':' ∉ ns) (h2 : ':' ∉ m) (h3 : ':' ∉ raw) :
    namespaceSpecific (urnFormat (String.mk ns) (String.mk m) (String.mk raw)) 1 =
      String.mk raw := by
  unfold namespaceSpecific
  rw [urnSegments_urnFormat ns m raw h1 h2 h3]
  rfl

/-- The id string built by `store` is exactly the canonical format
`immutable:entity-storage:<rawId>`. -/
theorem store_id_eq_urnFormat (rawS : String) :
    "immutable:" ++ urnToString NAMESPACE rawS = urnFormat "immutable" NAMESPACE rawS := by
  rcases rawS with ⟨l⟩
  rfl

/-! ## Auxiliary lemmas about the hex encoding -/

theorem hexDigitTable_ne_colon : ∀ m, m < 16 → hexDigitTable m ≠ ':' := by
  decide

theorem hexDigit_ne_colon (n : Nat) : hexDigit n ≠ ':' :=
  hexDigitTable_ne_colon (n % 16) (Nat.mod_lt n (by omega))

theorem colon_not_mem_bytesToHexChars : ∀ bs : List Nat, ':' ∉ bytesToHexChars bs
  | [] => by simp [bytesToHexChars]
  | b :: rest => by
    have ih := colon_not_mem_bytesToHexChars rest
    simp only [bytesToHexChars, List.mem_cons, not_or]
    exact ⟨fun he => hexDigit_ne_colon _ he.symm,
           fun he => hexDigit_ne_colon _ he.symm, ih⟩

theorem length_bytesToHexChars : ∀ bs : List Nat,
    (bytesToHexChars bs).length = 2 * bs.length
  | [] => rfl
  | b :: rest => by
    simp [bytesToHexChars, length_bytesToHexChars rest]
    omega

/-- A lowercase hexadecimal character. -/
def isHexChar (c : Char) : Bool :=
  ('0' ≤ c && c ≤ '9') || ('a' ≤ c && c ≤ 'f')

theorem isHexChar_hexDigitTable : ∀ m, m < 16 → isHexChar (hexDigitTable m) = true := by
  decide

theorem isHexChar_hexDigit (n : Nat) : isHexChar (hexDigit n) = true :=
  isHexChar_hexDigitTable (n % 16) (Nat.mod_lt n (by omega))

theorem isHexChar_mem_bytesToHexChars : ∀ bs : List Nat,
    ∀ c ∈ bytesToHexChars bs, isHexChar c = true
  | [], c, hc => by simp [bytesToHexChars] at hc
  | b :: rest, c, hc => by
    simp only [bytesToHexChars, List.mem_cons] at hc
    rcases hc with h | h | h
    · exact h ▸ isHexChar_hexDigit _
    · exact h ▸ isHexChar_hexDigit _
    · exact isHexChar_mem_bytesToHexChars rest c h

/-! ## Auxiliary lemmas about the backing entity store -/

theorem entGet_entSet : ∀ (st : EntityStore) (item : ImmutableItem),
    entGet (entSet st item) item.id = some item
  | [], item => by simp [entGet, entSet]
  | e :: rest, item => by
    have ih := entGet_entSet rest item
    by_cases he : e.id == item.id
    · simp [entGet, entSet, he, List.find?]
    · have hne : (e.id == item.id) = false := by simpa using he
      simp only [entSet, hne, Bool.false_eq_true, if_false]
      simp only [entGet, List.find?, hne]
      exact ih

theorem entGet_entRemove : ∀ (st : EntityStore) (key : String),
    entGet (entRemove st key) key = none
  | [], key => rfl
  | e :: rest, key => by
    have ih := entGet_entRemove rest key
    by_cases he : e.id == key
    · have h1 : (e.id != key) = false := by simpa using he
      simp only [entRemove, List.filter, h1]
      exact ih
    · have h1 : (e.id != key) = true := by simpa using he
      have h2 : (e.id == key) = false := by simpa using he
      simp only [entRemove, List.filter, h1]
      simp only [entGet, List.find?, h2]
      exact ih

/-! ## The canonical identifier built by the connector -/

theorem urnIsValid_canonical (raw : List Char) (hco : ':' ∉ raw) (hne : raw ≠ []) :
    urnIsValid (urnFormat "immutable" NAMESPACE (String.mk raw)) = true :=
  urnIsValid_urnFormat ("immutable".data) ("entity-storage".data) raw
    (by decide) (by decide) hco (by decide) (by decide) hne

theorem namespaceMethod_canonical (raw : List Char) (hco : ':' ∉ raw) :
    namespaceMethod (urnFormat "immutable" NAMESPACE (String.mk raw)) = NAMESPACE :=
  namespaceMethod_urnFormat ("immutable".data) ("entity-storage".data) raw
    (by decide) (by decide) hco

theorem namespaceSpecific_canonical (raw : List Char) (hco : ':' ∉ raw) :
    namespaceSpecific (urnFormat "immutable" NAMESPACE (String.mk raw)) 1 =
      String.mk raw :=
  namespaceSpecific_urnFormat ("immutable".data) ("entity-storage".data) raw
    (by decide) (by decide) hco

/-! ## Behaviour of the connector operations -/

theorem store_ok (st : EntityStore) (c : String) (d r : List Nat)
    (hc : c ≠ "") (hd : d ≠ []) :
    store st c d r = Except.ok
      (entSet st { id := bytesToHex r, controller := c, data := bytesToBase64 d },
       urnFormat "immutable" NAMESPACE (bytesToHex r)) := by
  have h1 : guardStringValue "controller" c = Except.ok () := by
    simp [guardStringValue, hc]
  have h2 : guardData "data" d = Except.ok () := by
    simp [guardData, hd]
  simp only [EntityStorageImmutableStorageConnector.store, h1, h2]
  rw [store_id_eq_urnFormat]

theorem get_found (st : EntityStore) (raw : List Char) (item : ImmutableItem)
    (payload : List Nat) (hco : ':' ∉ raw) (hne : raw ≠ [])
    (hget : entGet st (String.mk raw) = some item)
    (hdec : base64ToBytes item.data = some payload) :
    get st (urnFormat "immutable" NAMESPACE (String.mk raw)) = Except.ok payload := by
  have hv := urnIsValid_canonical raw hco hne
  have hm := namespaceMethod_canonical raw hco
  have hs := namespaceSpecific_canonical raw hco
  unfold EntityStorageImmutableStorageConnector.get
    EntityStorageImmutableStorageConnector.getTryBody
  simp [hv, hm, hs, hget, hdec]

theorem get_missing (st : EntityStore) (raw : List Char)
    (hco : ':' ∉ raw) (hne : raw ≠ [])
    (hget : entGet st (String.mk raw) = none) :
    get st (urnFormat "immutable" NAMESPACE (String.mk raw)) =
      Except.error (ConnError.wrapped CLASS_NAME "gettingFailed"
        (ConnError.notFound CLASS_NAME "immutableStorageNotFound")) := by
  have hv := urnIsValid_canonical raw hco hne
  have hm := namespaceMethod_canonical raw hco
  have hs := namespaceSpecific_canonical raw hco
  unfold EntityStorageImmutableStorageConnector.get
    EntityStorageImmutableStorageConnector.getTryBody
  simp [hv, hm, hs, hget]

theorem remove_wrongController (st : EntityStore) (raw : List Char)
    (item : ImmutableItem) (caller : String)
    (hco : ':' ∉ raw) (hne : raw ≠ []) (hcaller : caller ≠ "")
    (hget : entGet st (String.mk raw) = some item)
    (hctrl : item.controller ≠ caller) :
    remove st caller (urnFormat "immutable" NAMESPACE (String.mk raw)) =
      Except.error (ConnError.wrapped CLASS_NAME "removingFailed"
        (ConnError.general CLASS_NAME "notControllerRemove")) := by
  have hv := urnIsValid_canonical raw hco hne
  have hm := namespaceMethod_canonical raw hco
  have hs := namespaceSpecific_canonical raw hco
  have h1 : guardStringValue "controller" caller = Except.ok () := by
    simp [guardStringValue, hcaller]
  unfold EntityStorageImmutableStorageConnector.remove
    EntityStorageImmutableStorageConnector.removeTryBody
  simp [h1, hv, hm, hs, hget, hctrl]

theorem remove_success (st : EntityStore) (raw : List Char)
    (item : ImmutableItem) (caller : String)
    (hco : ':' ∉ raw) (hne : raw ≠ []) (hcaller : caller ≠ "")
    (hget : entGet st (String.mk raw) = some item)
    (hctrl : item.controller = caller) :
    remove st caller (urnFormat "immutable" NAMESPACE (String.mk raw)) =
      Except.ok (entRemove st (String.mk raw)) := by
  have hv := urnIsValid_canonical raw hco hne
  have hm := namespaceMethod_canonical raw hco
  have hs := namespaceSpecific_canonical raw hco
  have h1 : guardStringValue "controller" caller = Except.ok () := by
    simp [guardStringValue, hcaller]
  unfold EntityStorageImmutableStorageConnector.remove
    EntityStorageImmutableStorageConnector.removeTryBody
  simp [h1, hv, hm, hs, hget, hctrl]

theorem remove_missing (st : EntityStore) (raw : List Char) (caller : String)
    (hco : ':' ∉ raw) (hne : raw ≠ []) (hcaller : caller ≠ "")
    (hget : entGet st (String.mk raw) = none) :
    remove st caller (urnFormat "immutable" NAMESPACE (String.mk raw)) =
      Except.error (ConnError.wrapped CLASS_NAME "removingFailed"
        (ConnError.notFound CLASS_NAME "immutableStorageNotFound")) := by
  have hv := urnIsValid_canonical raw hco hne
  have hm := namespaceMethod_canonical raw hco
  have hs := namespaceSpecific_canonical raw hco
  have h1 : guardStringValue "controller" caller = Except.ok () := by
    simp [guardStringValue, hcaller]
  unfold EntityStorageImmutableStorageConnector.remove
    EntityStorageImmutableStorageConnector.removeTryBody
  simp [h1, hv, hm, hs, hget]

/-! ## The controllers of stored items are invisible to reads -/

/-- Rewrite every item's controller field (ids and payloads unchanged). -/
def mapControllers (f : String → String) (st : EntityStore) : EntityStore :=
  st.map fun item => { item with controller := f item.controller }

theorem entGet_mapControllers (f : String → String) :
    ∀ (st : EntityStore) (key : String),
      entGet (mapControllers f st) key =
        (entGet st key).map fun item => { item with controller := f item.controller }
  | [], _ => rfl
  | e :: rest, key => by
    have ih := entGet_mapControllers f rest key
    by_cases he : e.id == key
    · simp [mapControllers, entGet, List.find?, he]
    · have h2 : (e.id == key) = false := by simpa using he
      simp only [mapControllers, entGet, List.find?, List.map_cons, h2]
      simpa [mapControllers, entGet] using ih

/-! ## The claims -/

/-- Claim C1, amended.  When no record exists under the raw id of a valid,
namespace-matching identifier, `get` does raise a `NotFoundError`, but the
unconditional catch block wraps it, so what reaches the caller is the generic
`GeneralError` tagged `gettingFailed` with the `NotFoundError` as its inner
cause — not the distinct `NotFoundError` kind.  The result does not depend on
the rest of the backing store. -/
theorem claimC1_notFound_wrapped (st : EntityStore) (id : String)
    (hv : urnIsValid id = true) (hm : namespaceMethod id = NAMESPACE)
    (habs : entGet st (namespaceSpecific id 1) = none) :
    get st id = Except.error (ConnError.wrapped CLASS_NAME "gettingFailed"
      (ConnError.notFound CLASS_NAME "immutableStorageNotFound")) := by
  unfold EntityStorageImmutableStorageConnector.get
    EntityStorageImmutableStorageConnector.getTryBody
  simp [hv, hm, habs]

/-- Claim C1, witness for the amended theorem at a concrete input. -/
theorem claimC1_notFound_wrapped_witness :
    urnIsValid "immutable:entity-storage:ab" = true ∧
    namespaceMethod "immutable:entity-storage:ab" = NAMESPACE ∧
    entGet [] (namespaceSpecific "immutable:entity-storage:ab" 1) = none ∧
    get [] "immutable:entity-storage:ab" =
      Except.error (ConnError.wrapped CLASS_NAME "gettingFailed"
        (ConnError.notFound CLASS_NAME "immutableStorageNotFound")) :=
  ⟨by decide, by decide, by decide,
   claimC1_notFound_wrapped [] "immutable:entity-storage:ab"
     (by decide) (by decide) (by decide)⟩

/-- Claim C1, counterexample to the claim as stated: on a missing record the
error reaching the caller is not the distinct `NotFoundError`; it is the
generic wrapper tagged `gettingFailed`. -/
theorem claimC1_counterexample :
    get [] "immutable:entity-storage:ab" ≠
      Except.error (ConnError.notFound CLASS_NAME "immutableStorageNotFound") ∧
    get [] "immutable:entity-storage:ab" =
      Except.error (ConnError.wrapped CLASS_NAME "gettingFailed"
        (ConnError.notFound CLASS_NAME "immutableStorageNotFound")) :=
  ⟨by decide, by decide⟩

/-- Claim C2, amended.  When the caller is not the record's controller,
`remove` raises the ownership error (`GeneralError` tagged
`notControllerRemove`, the code's stand-in for `NotAuthorizedError`), but the
unconditional catch block wraps it, so the caller receives the generic
`GeneralError` tagged `removingFailed` with the ownership error as its inner
cause.  The record is unchanged: `get` on the same state still returns the
original payload. -/
theorem claimC2_remove_unauthorized (st : EntityStore) (raw : List Char)
    (item : ImmutableItem) (caller : String) (payload : List Nat)
    (hco : ':' ∉ raw) (hne : raw ≠ []) (hcaller : caller ≠ "")
    (hget : entGet st (String.mk raw) = some item)
    (hctrl : item.controller ≠ caller)
    (hdec : base64ToBytes item.data = some payload) :
    remove st caller (urnFormat "immutable" NAMESPACE (String.mk raw)) =
      Except.error (ConnError.wrapped CLASS_NAME "removingFailed"
        (ConnError.general CLASS_NAME "notControllerRemove")) ∧
    get st (urnFormat "immutable" NAMESPACE (String.mk raw)) =
      Except.ok payload :=
  ⟨remove_wrongController st raw item caller hco hne hcaller hget hctrl,
   get_found st raw item payload hco hne hget hdec⟩

/-- Claim C2, witness for the amended theorem at a concrete input. -/
theorem claimC2_remove_unauthorized_witness :
    (':' ∉ ['a', 'b']) ∧ (['a', 'b'] ≠ ([] : List Char)) ∧ ("bob" : String) ≠ "" ∧
    entGet [{ id := "ab", controller := "alice", data := "AQID" }]
      (String.mk ['a', 'b']) =
        some { id := "ab", controller := "alice", data := "AQID" } ∧
    ("alice" : String) ≠ "bob" ∧
    base64ToBytes "AQID" = some [1, 2, 3] ∧
    remove [{ id := "ab", controller := "alice", data := "AQID" }] "bob"
        (urnFormat "immutable" NAMESPACE (String.mk ['a', 'b'])) =
      Except.error (ConnError.wrapped CLASS_NAME "removingFailed"
        (ConnError.general CLASS_NAME "notControllerRemove")) ∧
    get [{ id := "ab", controller := "alice", data := "AQID" }]
        (urnFormat "immutable" NAMESPACE (String.mk ['a', 'b'])) =
      Except.ok [1, 2, 3] := by
  refine ⟨by decide, by decide, by decide, by decide, by decide, by decide, ?_, ?_⟩
  · exact (claimC2_remove_unauthorized
      [{ id := "ab", controller := "alice", data := "AQID" }] ['a', 'b']
      { id := "ab", controller := "alice", data := "AQID" } "bob" [1, 2, 3]
      (by decide) (by decide) (by decide) (by decide) (by decide) (by decide)).1
  · exact (claimC2_remove_unauthorized
      [{ id := "ab", controller := "alice", data := "AQID" }] ['a', 'b']
      { id := "ab", controller := "alice", data := "AQID" } "bob" [1, 2, 3]
      (by decide) (by decide) (by decide) (by decide) (by decide) (by decide)).2

/-- Claim C2, counterexample to the claim as stated: the ownership failure
does not reach the caller as a distinct unwrapped error kind; it arrives
wrapped in the generic `removingFailed` error. -/
theorem claimC2_counterexample :
    remove [{ id := "ab", controller := "alice", data := "AQID" }] "bob"
        "immutable:entity-storage:ab" ≠
      Except.error (ConnError.general CLASS_NAME "notControllerRemove") ∧
    remove [{ id := "ab", controller := "alice", data := "AQID" }] "bob"
        "immutable:entity-storage:ab" =
      Except.error (ConnError.wrapped CLASS_NAME "removingFailed"
        (ConnError.general CLASS_NAME "notControllerRemove")) :=
  ⟨by decide, by decide⟩

/-- Claim C3, confirmed.  For every non-empty owner and non-empty byte
sequence, `get` applied to the identifier returned by `store` returns exactly
the stored bytes: the payload survives the base64 encode on store and the
decode on get.  The random bytes drawn inside `store` are explicit (`r`). -/
theorem claimC3_store_get_roundtrip (st : EntityStore) (c : String)
    (d r : List Nat) (hc : c ≠ "") (hd : d ≠ [])
    (hb : ∀ b ∈ d, b < 256) (hr : r ≠ []) :
    ∃ st2 idS, store st c d r = Except.ok (st2, idS) ∧
      get st2 idS = Except.ok d := by
  refine ⟨_, _, store_ok st c d r hc hd, ?_⟩
  have hco := colon_not_mem_bytesToHexChars r
  have hne : bytesToHexChars r ≠ [] := by
    cases r with
    | nil => exact absurd rfl hr
    | cons b rest => simp [bytesToHexChars]
  have hget : entGet
      (entSet st { id := bytesToHex r, controller := c, data := bytesToBase64 d })
      (String.mk (bytesToHexChars r)) =
      some { id := bytesToHex r, controller := c, data := bytesToBase64 d } :=
    entGet_entSet st { id := bytesToHex r, controller := c, data := bytesToBase64 d }
  have hdec : base64ToBytes (bytesToBase64 d) = some d :=
    base64ToBytes_bytesToBase64 d hb
  exact get_found _ (bytesToHexChars r) _ d hco hne hget hdec

/-- Claim C3, witness at a concrete input. -/
theorem claimC3_store_get_roundtrip_witness :
    ("alice" : String) ≠ "" ∧ ([1, 2, 3] : List Nat) ≠ [] ∧
    (∀ b ∈ ([1, 2, 3] : List Nat), b < 256) ∧ ([7] : List Nat) ≠ [] ∧
    (∃ st2 idS, store [] "alice" [1, 2, 3] [7] = Except.ok (st2, idS) ∧
      get st2 idS = Except.ok [1, 2, 3]) :=
  ⟨by decide, by decide, by decide, by decide,
   claimC3_store_get_roundtrip [] "alice" [1, 2, 3] [7]
     (by decide) (by decide) (by decide) (by decide)⟩

/-- Claim C4, confirmed (with the `Guards`, `Urn.guard` argument checks
modelled from the spec).  `store` rejects an empty owner or empty data,
`remove` rejects an empty owner or an empty identifier, and `get` rejects an
empty identifier; in each case the result is the guard error and is the same
for every backing-store state, i.e. the backing store is never consulted. -/
theorem claimC4_empty_args_rejected (st : EntityStore) (c id : String)
    (d r : List Nat) (hc : c ≠ "") :
    store st "" d r = Except.error (ConnError.guardFailure "controller") ∧
    store st c [] r = Except.error (ConnError.guardFailure "data") ∧
    remove st "" id = Except.error (ConnError.guardFailure "controller") ∧
    get st "" = Except.error (ConnError.invalidUrn "id") ∧
    remove st c "" = Except.error (ConnError.invalidUrn "id") := by
  have hurn : urnIsValid "" = false := by decide
  refine ⟨?_, ?_, ?_, ?_, ?_⟩
  · unfold EntityStorageImmutableStorageConnector.store
    simp [guardStringValue]
  · unfold EntityStorageImmutableStorageConnector.store
    simp [guardStringValue, guardData, hc]
  · unfold EntityStorageImmutableStorageConnector.remove
    simp [guardStringValue]
  · unfold EntityStorageImmutableStorageConnector.get
    simp [hurn]
  · unfold EntityStorageImmutableStorageConnector.remove
    simp [guardStringValue, hc, hurn]

/-- Claim C4, witness at a concrete input. -/
theorem claimC4_empty_args_rejected_witness :
    ("alice" : String) ≠ "" ∧
    (store [] "" [1] [2] = Except.error (ConnError.guardFailure "controller") ∧
     store [] "alice" [] [2] = Except.error (ConnError.guardFailure "data") ∧
     remove [] "" "x" = Except.error (ConnError.guardFailure "controller") ∧
     get [] "" = Except.error (ConnError.invalidUrn "id") ∧
     remove [] "alice" "" = Except.error (ConnError.invalidUrn "id")) :=
  ⟨by decide, claimC4_empty_args_rejected [] "alice" "x" [1] [2] (by decide)⟩

/-- Claim C5, confirmed.  On a syntactically valid identifier whose method
tag differs from the configured namespace, `get` fails with the namespace
mismatch error (`GeneralError` tagged `namespaceMismatch`, raised before the
try block, hence unwrapped and never a `NotFoundError`), and the result is
the same for every backing-store state: no lookup is performed. -/
theorem claimC5_namespace_mismatch (st : EntityStore) (id : String)
    (hv : urnIsValid id = true) (hm : namespaceMethod id ≠ NAMESPACE) :
    get st id = Except.error (ConnError.general CLASS_NAME "namespaceMismatch") := by
  unfold EntityStorageImmutableStorageConnector.get
  simp [hv, hm]

/-- Claim C5, witness at a concrete input: the backing store even holds a
record under the raw id, yet the mismatch error is returned. -/
theorem claimC5_namespace_mismatch_witness :
    urnIsValid "immutable:other-method:ab" = true ∧
    namespaceMethod "immutable:other-method:ab" ≠ NAMESPACE ∧
    get [{ id := "ab", controller := "alice", data := "AQID" }]
        "immutable:other-method:ab" =
      Except.error (ConnError.general CLASS_NAME "namespaceMismatch") :=
  ⟨by decide, by decide,
   claimC5_namespace_mismatch
     [{ id := "ab", controller := "alice", data := "AQID" }]
     "immutable:other-method:ab" (by decide) (by decide)⟩

/-- Claim C6, confirmed (identifier scheme modelled from the spec).  For
every valid triple of colon-free, non-empty segments, parsing the formatted
string `namespace:method:rawId` yields back exactly the method tag and the
raw id. -/
theorem claimC6_urn_roundtrip (ns m raw : List Char)
    (h1 : ':' ∉ ns) (h2 : ':' ∉ m) (h3 : ':' ∉ raw)
    (n1 : ns ≠ []) (n2 : m ≠ []) (n3 : raw ≠ []) :
    urnParse (urnFormat (String.mk ns) (String.mk m) (String.mk raw)) =
      Except.ok (String.mk m, String.mk raw) := by
  unfold urnParse
  simp [urnIsValid_urnFormat ns m raw h1 h2 h3 n1 n2 n3,
        namespaceMethod_urnFormat ns m raw h1 h2 h3,
        namespaceSpecific_urnFormat ns m raw h1 h2 h3]

/-- Claim C6, witness at a concrete input. -/
theorem claimC6_urn_roundtrip_witness :
    (':' ∉ ['i', 'm']) ∧ (':' ∉ ['m', 'e']) ∧ (':' ∉ ['x', 'y']) ∧
    (['i', 'm'] ≠ ([] : List Char)) ∧ (['m', 'e'] ≠ ([] : List Char)) ∧
    (['x', 'y'] ≠ ([] : List Char)) ∧
    urnParse (urnFormat (String.mk ['i', 'm']) (String.mk ['m', 'e'])
        (String.mk ['x', 'y'])) =
      Except.ok (String.mk ['m', 'e'], String.mk ['x', 'y']) :=
  ⟨by decide, by decide, by decide, by decide, by decide, by decide,
   claimC6_urn_roundtrip ['i', 'm'] ['m', 'e'] ['x', 'y']
     (by decide) (by decide) (by decide) (by decide) (by decide) (by decide)⟩

/-- Claim C7, confirmed.  A successful `store` returns exactly the canonical
identifier `immutable:entity-storage:<hex>` where the hex part encodes the 32
random bytes as 64 lowercase hexadecimal characters, and that hex part is the
id under which the record was persisted in the backing store. -/
theorem claimC7_store_id_form (st : EntityStore) (c : String) (d r : List Nat)
    (hc : c ≠ "") (hd : d ≠ []) (hr : r.length = 32) :
    ∃ st2,
      store st c d r =
        Except.ok (st2, urnFormat "immutable" NAMESPACE (bytesToHex r)) ∧
      (bytesToHex r).length = 64 ∧
      (∀ ch ∈ (bytesToHex r).data, isHexChar ch = true) ∧
      entGet st2 (bytesToHex r) =
        some { id := bytesToHex r, controller := c, data := bytesToBase64 d } := by
  refine ⟨_, store_ok st c d r hc hd, ?_, ?_, ?_⟩
  · show (bytesToHexChars r).length = 64
    rw [length_bytesToHexChars r, hr]
  · exact isHexChar_mem_bytesToHexChars r
  · exact entGet_entSet st { id := bytesToHex r, controller := c, data := bytesToBase64 d }

/-- Claim C7, witness at a concrete input. -/
theorem claimC7_store_id_form_witness :
    ("alice" : String) ≠ "" ∧ ([5] : List Nat) ≠ [] ∧
    (List.replicate 32 0 : List Nat).length = 32 ∧
    (∃ st2,
      store [] "alice" [5] (List.replicate 32 0) =
        Except.ok (st2,
          urnFormat "immutable" NAMESPACE (bytesToHex (List.replicate 32 0))) ∧
      (bytesToHex (List.replicate 32 0)).length = 64 ∧
      (∀ ch ∈ (bytesToHex (List.replicate 32 0)).data, isHexChar ch = true) ∧
      entGet st2 (bytesToHex (List.replicate 32 0)) =
        some { id := bytesToHex (List.replicate 32 0), controller := "alice",
               data := bytesToBase64 [5] }) :=
  ⟨by decide, by decide, by decide,
   claimC7_store_id_form [] "alice" [5] (List.replicate 32 0)
     (by decide) (by decide) (by decide)⟩

/-- Claim C8, amended.  After a successful `remove` by the owner, the record
is gone: a subsequent `get` raises `NotFoundError` and a repeated `remove`
raises `NotFoundError`, but in both cases the catch block wraps the error, so
what the caller receives is the generic wrapper (`gettingFailed` resp.
`removingFailed`) with the `NotFoundError` as its inner cause, not the
distinct `NotFoundError` kind.  `get` takes no state back to the caller, and
`store`/`remove` are the only operations returning a new state, so `remove`
is the only transition out of the stored state in the model. -/
theorem claimC8_remove_then_notFound (st : EntityStore) (raw : List Char)
    (item : ImmutableItem) (caller : String)
    (hco : ':' ∉ raw) (hne : raw ≠ []) (hcaller : caller ≠ "")
    (hget : entGet st (String.mk raw) = some item)
    (hctrl : item.controller = caller) :
    remove st caller (urnFormat "immutable" NAMESPACE (String.mk raw)) =
      Except.ok (entRemove st (String.mk raw)) ∧
    get (entRemove st (String.mk raw))
        (urnFormat "immutable" NAMESPACE (String.mk raw)) =
      Except.error (ConnError.wrapped CLASS_NAME "gettingFailed"
        (ConnError.notFound CLASS_NAME "immutableStorageNotFound")) ∧
    remove (entRemove st (String.mk raw)) caller
        (urnFormat "immutable" NAMESPACE (String.mk raw)) =
      Except.error (ConnError.wrapped CLASS_NAME "removingFailed"
        (ConnError.notFound CLASS_NAME "immutableStorageNotFound")) :=
  ⟨remove_success st raw item caller hco hne hcaller hget hctrl,
   get_missing _ raw hco hne (entGet_entRemove st (String.mk raw)),
   remove_missing _ raw caller hco hne hcaller (entGet_entRemove st (String.mk raw))⟩

/-- Claim C8, witness at a concrete input. -/
theorem claimC8_remove_then_notFound_witness :
    (':' ∉ ['a', 'b']) ∧ (['a', 'b'] ≠ ([] : List Char)) ∧
    ("alice" : String) ≠ "" ∧
    entGet [{ id := "ab", controller := "alice", data := "AQID" }]
      (String.mk ['a', 'b']) =
        some { id := "ab", controller := "alice", data := "AQID" } ∧
    ("alice" : String) = "alice" ∧
    (remove [{ id := "ab", controller := "alice", data := "AQID" }] "alice"
        (urnFormat "immutable" NAMESPACE (String.mk ['a', 'b'])) =
      Except.ok (entRemove [{ id := "ab", controller := "alice", data := "AQID" }]
        (String.mk ['a', 'b'])) ∧
    get (entRemove [{ id := "ab", controller := "alice", data := "AQID" }]
          (String.mk ['a', 'b']))
        (urnFormat "immutable" NAMESPACE (String.mk ['a', 'b'])) =
      Except.error (ConnError.wrapped CLASS_NAME "gettingFailed"
        (ConnError.notFound CLASS_NAME "immutableStorageNotFound")) ∧
    remove (entRemove [{ id := "ab", controller := "alice", data := "AQID" }]
          (String.mk ['a', 'b'])) "alice"
        (urnFormat "immutable" NAMESPACE (String.mk ['a', 'b'])) =
      Except.error (ConnError.wrapped CLASS_NAME "removingFailed"
        (ConnError.notFound CLASS_NAME "immutableStorageNotFound"))) :=
  ⟨by decide, by decide, by decide, by decide, rfl,
   claimC8_remove_then_notFound
     [{ id := "ab", controller := "alice", data := "AQID" }] ['a', 'b']
     { id := "ab", controller := "alice", data := "AQID" } "alice"
     (by decide) (by decide) (by decide) (by decide) rfl⟩

/-- Claim C8, counterexample to the claim as stated: after a successful
remove, `get` does not fail with the distinct `NotFoundError`; the error
arrives wrapped in the generic `gettingFailed` error (and the repeated
`remove` likewise wraps it in `removingFailed`). -/
theorem claimC8_counterexample :
    remove [{ id := "ab", controller := "alice", data := "AQID" }] "alice"
        "immutable:entity-storage:ab" = Except.ok [] ∧
    get [] "immutable:entity-storage:ab" ≠
      Except.error (ConnError.notFound CLASS_NAME "immutableStorageNotFound") ∧
    remove [] "alice" "immutable:entity-storage:ab" ≠
      Except.error (ConnError.notFound CLASS_NAME "immutableStorageNotFound") ∧
    remove [] "alice" "immutable:entity-storage:ab" =
      Except.error (ConnError.wrapped CLASS_NAME "removingFailed"
        (ConnError.notFound CLASS_NAME "immutableStorageNotFound")) :=
  ⟨by decide, by decide, by decide, by decide⟩

/-- Claim C9, confirmed.  `get` performs no ownership check: its result is
invariant under arbitrary rewriting of every record's controller field, for
every state and every identifier — possession of the identifier alone
determines the outcome, and only `remove` compares the caller against the
stored controller. -/
theorem claimC9_get_ignores_controller (f : String → String)
    (st : EntityStore) (id : String) :
    get (mapControllers f st) id = get st id := by
  unfold EntityStorageImmutableStorageConnector.get
    EntityStorageImmutableStorageConnector.getTryBody
  rw [entGet_mapControllers]
  cases entGet st (namespaceSpecific id 1) <;> simp

/-- Claim C10, confirmed.  The identifier returned by `store` depends only on
the random bytes drawn, not on the controller or the payload: two stores with
the same random output and arbitrary different inputs (and even different
prior states) return identical identifier strings. -/
theorem claimC10_id_independent (st1 st2 : EntityStore) (c1 c2 : String)
    (d1 d2 r : List Nat) (h1 : c1 ≠ "") (h2 : c2 ≠ "")
    (h3 : d1 ≠ []) (h4 : d2 ≠ []) :
    Except.map Prod.snd (store st1 c1 d1 r) =
      Except.map Prod.snd (store st2 c2 d2 r) := by
  rw [store_ok st1 c1 d1 r h1 h3, store_ok st2 c2 d2 r h2 h4]
  rfl

/-- Claim C10, witness at a concrete input: different owners, payloads and
prior states, same random bytes, identical returned identifier. -/
theorem claimC10_id_independent_witness :
    ("alice" : String) ≠ "" ∧ ("bob" : String) ≠ "" ∧
    ([1] : List Nat) ≠ [] ∧ ([2, 3] : List Nat) ≠ [] ∧
    Except.map Prod.snd (store [] "alice" [1] [9, 9]) =
      Except.map Prod.snd
        (store [{ id := "zz", controller := "eve", data := "AQID" }]
          "bob" [2, 3] [9, 9]) :=
  ⟨by decide, by decide, by decide, by decide,
   claimC10_id_independent []
     [{ id := "zz", controller := "eve", data := "AQID" }]
     "alice" "bob" [1] [2, 3] [9, 9]
     (by decide) (by decide) (by decide) (by decide)⟩
